import Mathlib

/-!
Shallow embedding of the hoyobot process monitor (`monitor.js`): the
supervision-and-notification control loop. Pure state is the set of
module-level mutable variables of `monitor.js` (`botProcess`, `isUp`,
`lastStartTime`, `lastExitTime`, `autoRestart`, `lastNotify`, plus the
pending `setTimeout(startBot, _)` callbacks as an explicit timer list).
Side effects (spawning, killing, notification dispatch, logging, HTTP
responses) are returned as an explicit effect list. Times are `Int`
millisecond timestamps (JavaScript `Date.now()` values are exact
integers below 2^53).
-/

/-- Status kinds used as keys of `lastNotify` in `monitor.js`
(`{ UP:0, DOWN:0, RESOURCE:0 }`). -/
inductive Status where
  | UP
  | DOWN
  | RESOURCE
deriving DecidableEq, Repr

/-- The `lastNotify` throttle map: last dispatch-attempt timestamp per
status kind, each initialised to `0` as in `monitor.js` line 44. -/
structure LastNotify where
  up : Int := 0
  down : Int := 0
  resource : Int := 0
deriving DecidableEq, Repr

def LastNotify.get (th : LastNotify) : Status → Int
  | Status.UP => th.up
  | Status.DOWN => th.down
  | Status.RESOURCE => th.resource

def LastNotify.set (th : LastNotify) : Status → Int → LastNotify
  | Status.UP, t => { th with up := t }
  | Status.DOWN, t => { th with down := t }
  | Status.RESOURCE, t => { th with resource := t }

theorem LastNotify.get_set_self (th : LastNotify) (k : Status) (t : Int) :
    (th.set k t).get k = t := by
  cases k <;> rfl

theorem LastNotify.get_set_ne (th : LastNotify) {k k' : Status} (t : Int)
    (h : k ≠ k') : (th.set k' t).get k = th.get k := by
  cases k <;> cases k' <;> first | rfl | exact absurd rfl h

/-- A configured notification channel (`config.platforms` entry):
its type (`telegram` or `webhook`), its `active` flag, and whether the
HTTP delivery to it would fail (the outcome of the `axios.post`,
treated as an input of the model). -/
inductive PlatformKind where
  | telegram
  | webhook
deriving DecidableEq, Repr

structure Platform where
  kind : PlatformKind
  active : Bool
  deliveryFails : Bool := false
deriving DecidableEq, Repr

/-- One per-channel delivery attempt: `ok = false` means the `axios.post`
threw and the error was caught and logged by the per-iteration
`try/catch` of `notifyAll`. -/
structure Attempt where
  platform : Platform
  ok : Bool
deriving DecidableEq, Repr

structure AuthConfig where
  user : String := "admin"
  pass : String := "password"
deriving DecidableEq, Repr

/-- The configuration options the control loop reads. Defaults are the
`monitor.js` fallbacks (`throttleMinutes ?? 10`, auth
`{ user: 'admin', pass: 'password' }`). -/
structure Config where
  throttleMinutes : Int := 10
  auth : AuthConfig := {}
  platforms : List Platform := []
deriving DecidableEq, Repr

/-- Observable side effects of one handler invocation, in program order. -/
inductive Effect where
  | spawn (pid : Nat)
  | attachOutput (pid : Nat)
  | kill (pid : Nat) (signal : String)
  | notify (detail : String) (status : Status) (attempts : List Attempt)
  | logInfo (msg : String)
  | logErr (msg : String)
  | response (code : Nat)
  | startPull (manual : Bool)
deriving DecidableEq, Repr

/-- A pending `setTimeout(startBot, delay)` callback. -/
structure Timer where
  fireAt : Int
  delay : Int
deriving DecidableEq, Repr

/-- The module-level mutable state of `monitor.js` (line 43-44), plus
the pending delayed `startBot` callbacks and a fresh-pid counter
standing in for the OS pid allocator. -/
structure SupState where
  botProcess : Option Nat := none
  isUp : Bool := false
  lastStartTime : Option Int := none
  lastExitTime : Option Int := none
  autoRestart : Bool := false
  lastNotify : LastNotify := {}
  timers : List Timer := []
  nextPid : Nat := 1
deriving DecidableEq, Repr

/-- The fan-out loop body of `notifyAll` (lines 65-85): every `active`
platform gets one delivery attempt; a failing attempt is caught by the
per-iteration `try/catch`, so it never stops the loop. -/
def deliverAll (ps : List Platform) : List Attempt :=
  (ps.filter (fun p => p.active)).map (fun p => { platform := p, ok := !p.deliveryFails })

/-- `notifyAll(detail, status)` (lines 61-86): drop silently when inside
the throttle window measured from `lastNotify[status]`, otherwise set
`lastNotify[status] = now` first and then attempt delivery to every
active channel. -/
def notifyAll (cfg : Config) (now : Int) (th : LastNotify) (detail : String)
    (status : Status) : LastNotify × List Effect :=
  if now - th.get status < cfg.throttleMinutes * 60000 then (th, [])
  else (th.set status now, [Effect.notify detail status (deliverAll cfg.platforms)])

/-- `startBot()` (lines 89-107): unconditionally spawns a new child,
sets `isUp`, records `lastStartTime`, logs, notifies `UP`, and attaches
output capture. There is no `if (isUp) return` guard in `monitor.js`. -/
def startBot (cfg : Config) (now : Int) (s : SupState) : SupState × List Effect :=
  let pid := s.nextPid
  let s1 : SupState := { s with botProcess := some pid, isUp := true,
                                lastStartTime := some now, nextPid := pid + 1 }
  let n := notifyAll cfg now s1.lastNotify "Bot started" Status.UP
  ({ s1 with lastNotify := n.1 },
   Effect.spawn pid :: Effect.logInfo "Bot started" :: n.2 ++ [Effect.attachOutput pid])

/-- The `botProcess.on('exit', ...)` handler (lines 96-101): clears
`isUp`, records `lastExitTime`, notifies `DOWN`, and schedules
`setTimeout(startBot, 5000)` exactly when `autoRestart` is set at exit
time. -/
def onExit (cfg : Config) (now : Int) (code : Option Int) (signal : Option String)
    (s : SupState) : SupState × List Effect :=
  let s1 : SupState := { s with isUp := false, lastExitTime := some now }
  let n := notifyAll cfg now s1.lastNotify "Bot exited" Status.DOWN
  let s2 : SupState := { s1 with lastNotify := n.1 }
  if s.autoRestart then
    ({ s2 with timers := s2.timers ++ [{ fireAt := now + 5000, delay := 5000 }] },
     Effect.logInfo "Bot exited" :: n.2)
  else
    (s2, Effect.logInfo "Bot exited" :: n.2)

/-- The `botProcess.on('error', ...)` handler (lines 102-106): Down
transition and `DOWN` notification, never a scheduled restart. -/
def onError (cfg : Config) (now : Int) (s : SupState) : SupState × List Effect :=
  let s1 : SupState := { s with isUp := false, lastExitTime := some now }
  let n := notifyAll cfg now s1.lastNotify "Spawn error" Status.DOWN
  ({ s1 with lastNotify := n.1 }, Effect.logErr "Spawn error" :: n.2)

/-- The pass condition of the `requireAuth` middleware (lines 18-25): a
request passes iff it carries basic-auth credentials matching
`AUTH.user` / `AUTH.pass`. -/
def checkAuth (cfg : Config) (creds : Option (String × String)) : Bool :=
  match creds with
  | none => false
  | some c => c.1 == cfg.auth.user && c.2 == cfg.auth.pass

/-- `POST /control/restart` (lines 258-262), behind `requireAuth`: on
auth failure respond 401 and do nothing; otherwise kill the child when
`botProcess && isUp`, and unconditionally schedule
`setTimeout(startBot, 1000)`. -/
def handleRestart (cfg : Config) (now : Int) (creds : Option (String × String))
    (s : SupState) : SupState × List Effect :=
  if checkAuth cfg creds then
    let kills : List Effect :=
      match s.botProcess, s.isUp with
      | some pid, true => [Effect.kill pid "SIGTERM"]
      | _, _ => []
    ({ s with timers := s.timers ++ [{ fireAt := now + 1000, delay := 1000 }] },
     kills ++ [Effect.response 303])
  else
    (s, [Effect.response 401])

/-- `POST /control/autorestart` (lines 265-269). The route has no
`requireAuth` middleware, so the credentials argument is ignored; the
handler assigns `autoRestart = req.body.autoRestart === 'on'`. -/
def handleAutorestart (cfg : Config) (creds : Option (String × String))
    (body : Option String) (s : SupState) : SupState × List Effect :=
  ({ s with autoRestart := body == some "on" },
   [Effect.logInfo "Auto-Restart toggled", Effect.response 303])

/-- `POST /control/update` (lines 272-275), behind `requireAuth`: on
auth failure respond 401 and do nothing; otherwise trigger the manual
`git pull` (whose asynchronous result is handled by
`manualUpdateApply`). -/
def handleUpdate (cfg : Config) (creds : Option (String × String))
    (s : SupState) : SupState × List Effect :=
  if checkAuth cfg creds then (s, [Effect.startPull true, Effect.response 303])
  else (s, [Effect.response 401])

/-- The `exec('git pull', ...)` callback of `autoUpdate` (lines 110-120),
applied to the pull outcome: on error only log; when the output matches
`Already up to date` do nothing; otherwise log, notify `UP`
(`'Code updated'`), then kill the child when `botProcess && isUp`, else
call `startBot()` directly. -/
def autoUpdateApply (cfg : Config) (now : Int) (pullErr : Bool) (changed : Bool)
    (s : SupState) : SupState × List Effect :=
  if pullErr then (s, [Effect.logErr "git pull failed"])
  else if changed then
    let n := notifyAll cfg now s.lastNotify "Code updated" Status.UP
    let s1 : SupState := { s with lastNotify := n.1 }
    match s.botProcess, s.isUp with
    | some pid, true =>
        (s1, Effect.logInfo "Pulled" :: n.2 ++ [Effect.kill pid "SIGTERM"])
    | _, _ =>
        let r := startBot cfg now s1
        (r.1, Effect.logInfo "Pulled" :: n.2 ++ r.2)
  else (s, [])

/-- The `exec('git pull', ...)` callback of `manualUpdate`
(lines 125-135): like `autoUpdateApply` but it logs `Manual pull`
before testing the output, so the no-change case still logs. -/
def manualUpdateApply (cfg : Config) (now : Int) (pullErr : Bool) (changed : Bool)
    (s : SupState) : SupState × List Effect :=
  if pullErr then (s, [Effect.logErr "git pull failed"])
  else if changed then
    let n := notifyAll cfg now s.lastNotify "Manual update" Status.UP
    let s1 : SupState := { s with lastNotify := n.1 }
    match s.botProcess, s.isUp with
    | some pid, true =>
        (s1, Effect.logInfo "Manual pull" :: n.2 ++ [Effect.kill pid "SIGTERM"])
    | _, _ =>
        let r := startBot cfg now s1
        (r.1, Effect.logInfo "Manual pull" :: n.2 ++ r.2)
  else (s, [Effect.logInfo "Manual pull"])

/-- Firing the earliest pending `setTimeout(startBot, _)` callback: the
callback is always `startBot`. -/
def fireTimer (cfg : Config) (now : Int) (s : SupState) : SupState × List Effect :=
  match s.timers with
  | [] => (s, [])
  | _ :: rest => startBot cfg now { s with timers := rest }

/-- Number of `spawn` effects in a list. -/
def spawnCount : List Effect → Nat
  | [] => 0
  | Effect.spawn _ :: es => spawnCount es + 1
  | _ :: es => spawnCount es

/-- Number of `kill` effects in a list. -/
def killCount : List Effect → Nat
  | [] => 0
  | Effect.kill _ _ :: es => killCount es + 1
  | _ :: es => killCount es

/-- Number of dispatched notifications of a given status kind. -/
def notifyCount (k : Status) : List Effect → Nat
  | [] => 0
  | Effect.notify _ k' _ :: es => (if k' = k then 1 else 0) + notifyCount k es
  | _ :: es => notifyCount k es

/-- Number of successful per-channel deliveries across all dispatched
notifications in a list. -/
def okDeliveries : List Effect → Nat
  | [] => 0
  | Effect.notify _ _ att :: es => (att.filter (fun a => a.ok)).length + okDeliveries es
  | _ :: es => okDeliveries es

/-- Run a sequence of `notifyAll` calls (timestamp, status kind) through
the throttle state, recording for each call whether it dispatched. -/
def runNotify (cfg : Config) : LastNotify → List (Int × Status) → List (Int × Status × Bool)
  | _, [] => []
  | th, (t, k) :: rest =>
      let n := notifyAll cfg t th "event" k
      (t, k, !n.2.isEmpty) :: runNotify cfg n.1 rest

/-- Timestamps of the dispatched calls of a given kind in a trace. -/
def dispatchTimes (k : Status) : List (Int × Status × Bool) → List Int
  | [] => []
  | e :: tr =>
      if e.2.1 = k ∧ e.2.2 = true then e.1 :: dispatchTimes k tr
      else dispatchTimes k tr

theorem spawnCount_append (a b : List Effect) :
    spawnCount (a ++ b) = spawnCount a + spawnCount b := by
  induction a with
  | nil => simp [spawnCount]
  | cons e es ih => cases e <;> simp [spawnCount, ih] <;> omega

theorem killCount_append (a b : List Effect) :
    killCount (a ++ b) = killCount a + killCount b := by
  induction a with
  | nil => simp [killCount]
  | cons e es ih => cases e <;> simp [killCount, ih] <;> omega

theorem notifyCount_append (k : Status) (a b : List Effect) :
    notifyCount k (a ++ b) = notifyCount k a + notifyCount k b := by
  induction a with
  | nil => simp [notifyCount]
  | cons e es ih => cases e <;> simp [notifyCount, ih] <;> omega

theorem spawnCount_notifyAll (cfg : Config) (now : Int) (th : LastNotify)
    (d : String) (k : Status) : spawnCount (notifyAll cfg now th d k).2 = 0 := by
  unfold notifyAll
  split <;> simp [spawnCount]

theorem killCount_notifyAll (cfg : Config) (now : Int) (th : LastNotify)
    (d : String) (k : Status) : killCount (notifyAll cfg now th d k).2 = 0 := by
  unfold notifyAll
  split <;> simp [killCount]

/-- Helper for the throttle invariant: whatever the call sequence, the
timestamps at which a given kind actually dispatches, prefixed with the
initial throttle entry for that kind, form a chain in which each step
advances by at least the throttle window. -/
theorem runNotify_chain (cfg : Config) (k : Status) (calls : List (Int × Status)) :
    ∀ th : LastNotify,
      List.Chain' (fun a b => a + cfg.throttleMinutes * 60000 ≤ b)
        (th.get k :: dispatchTimes k (runNotify cfg th calls)) := by
  induction calls with
  | nil => intro th; simp [runNotify, dispatchTimes]
  | cons c rest ih =>
      intro th
      obtain ⟨t, k'⟩ := c
      by_cases hth : t - th.get k' < cfg.throttleMinutes * 60000
      · -- the call is dropped: throttle state unchanged, nothing dispatched
        simpa [runNotify, notifyAll, hth, dispatchTimes] using ih th
      · by_cases hk : k' = k
        · -- same kind, dispatched: the guard gives the chain step
          subst hk
          have h1 : th.get k' + cfg.throttleMinutes * 60000 ≤ t := by omega
          have h2 := ih (th.set k' t)
          rw [LastNotify.get_set_self] at h2
          simpa [runNotify, notifyAll, hth, dispatchTimes, List.chain'_cons] using
            And.intro h1 h2
        · -- other kind: this kind's throttle entry is untouched
          have h2 := ih (th.set k' t)
          rw [LastNotify.get_set_ne th t (Ne.symm hk)] at h2
          simpa [runNotify, notifyAll, hth, dispatchTimes, hk] using h2

/-- C3: for every status kind and every sequence of notify calls, no two
dispatches of the same kind occur closer together than the configured
throttle window, measured from dispatch-attempt time and globally per
kind: the dispatch timestamps of a kind always advance by at least the
window (first conjunct); a call within the window of the last dispatch
for its kind returns with no delivery attempt and unchanged state
(second conjunct); a call at or after the window dispatches again
(third conjunct). In particular, with the 10-minute default window, a
DOWN dispatch at t=600000, a second DOWN event 5 minutes later produces
no dispatch, and a third DOWN event 11 minutes after the first
dispatches again (fourth conjunct). -/
theorem notify_throttle_per_kind :
    (∀ (cfg : Config) (th : LastNotify) (calls : List (Int × Status)) (k : Status),
        List.Chain' (fun a b => a + cfg.throttleMinutes * 60000 ≤ b)
          (th.get k :: dispatchTimes k (runNotify cfg th calls)))
    ∧ (∀ (cfg : Config) (th : LastNotify) (now : Int) (d : String) (k : Status),
        now - th.get k < cfg.throttleMinutes * 60000 →
          notifyAll cfg now th d k = (th, []))
    ∧ (∀ (cfg : Config) (th : LastNotify) (now : Int) (d : String) (k : Status),
        cfg.throttleMinutes * 60000 ≤ now - th.get k →
          notifyAll cfg now th d k =
            (th.set k now, [Effect.notify d k (deliverAll cfg.platforms)]))
    ∧ (runNotify { throttleMinutes := 10 } {}
          [(600000, Status.DOWN), (900000, Status.DOWN), (1260000, Status.DOWN)]
        |>.map (fun e => e.2.2)) = [true, false, true] := by
  refine ⟨fun cfg th calls k => runNotify_chain cfg k calls th, ?_, ?_, ?_⟩
  · intro cfg th now d k h
    simp [notifyAll, h]
  · intro cfg th now d k h
    rw [notifyAll, if_neg (by omega)]
  · decide

/-- C3 witness: the throttle invariants applied at concrete inputs. -/
theorem notify_throttle_per_kind_witness :
    List.Chain' (fun a b => a + (10 : Int) * 60000 ≤ b)
      ((LastNotify.get {} Status.DOWN) ::
        dispatchTimes Status.DOWN
          (runNotify { throttleMinutes := 10 } {}
            [(600000, Status.DOWN), (900000, Status.DOWN), (1260000, Status.DOWN)]))
    ∧ notifyAll { throttleMinutes := 10 } 900000
        { down := 600000 } "x" Status.DOWN = ({ down := 600000 }, []) := by
  refine ⟨?_, ?_⟩
  · exact notify_throttle_per_kind.1 { throttleMinutes := 10 } {}
      [(600000, Status.DOWN), (900000, Status.DOWN), (1260000, Status.DOWN)] Status.DOWN
  · exact notify_throttle_per_kind.2.1 { throttleMinutes := 10 }
      { down := 600000 } 900000 "x" Status.DOWN (by decide)

/-- C5: on every child exit event, if `autoRestart` is enabled at exit
time then exactly one `startBot` callback is scheduled with a fixed
5000 ms delay (to fire at `now + 5000`, not before, and with no
immediate spawn in the exit handler itself); if it is disabled, the
exit schedules nothing and the state is Down with no pending restart
beyond what was already pending. -/
theorem onExit_schedules_restart_iff_policy :
    ∀ (cfg : Config) (now : Int) (code : Option Int) (sig : Option String) (s : SupState),
      (onExit cfg now code sig s).1.isUp = false ∧
      (onExit cfg now code sig s).1.lastExitTime = some now ∧
      (onExit cfg now code sig s).1.autoRestart = s.autoRestart ∧
      (onExit cfg now code sig s).1.timers =
        s.timers ++ (if s.autoRestart then [{ fireAt := now + 5000, delay := 5000 }] else []) ∧
      spawnCount (onExit cfg now code sig s).2 = 0 := by
  intro cfg now code sig s
  unfold onExit
  by_cases h : s.autoRestart <;>
    simp [h, spawnCount, spawnCount_notifyAll]

/-- C6: an update check (scheduled or manual) whose pull reports no
changes kills nothing, spawns nothing, emits no notification, and
leaves the supervisor state exactly unchanged; the manual variant only
writes its unconditional `Manual pull` log line. -/
theorem update_no_changes_noop :
    ∀ (cfg : Config) (now : Int) (s : SupState),
      autoUpdateApply cfg now false false s = (s, []) ∧
      (manualUpdateApply cfg now false false s).1 = s ∧
      (manualUpdateApply cfg now false false s).2 = [Effect.logInfo "Manual pull"] ∧
      spawnCount (manualUpdateApply cfg now false false s).2 = 0 ∧
      killCount (manualUpdateApply cfg now false false s).2 = 0 ∧
      notifyCount Status.UP (manualUpdateApply cfg now false false s).2 = 0 := by
  intro cfg now s
  simp [autoUpdateApply, manualUpdateApply, spawnCount, killCount, notifyCount]

/-- C7: a notify call that passes the throttle check first advances the
throttle timestamp for its kind (the new throttle state is
`th.set k now` independently of any delivery outcome), then attempts
delivery to every active channel independently: the attempt list covers
exactly the active channels in order, each attempt's outcome depends
only on its own channel (a failure is caught, marked, and does not
remove later channels from the list), and the call always returns a
value (no error reaches the caller). -/
theorem notify_dispatch_updates_state_then_delivers_all :
    ∀ (cfg : Config) (now : Int) (th : LastNotify) (d : String) (k : Status),
      cfg.throttleMinutes * 60000 ≤ now - th.get k →
        (notifyAll cfg now th d k).1 = th.set k now ∧
        (notifyAll cfg now th d k).2 = [Effect.notify d k (deliverAll cfg.platforms)] ∧
        (deliverAll cfg.platforms).map (fun a => a.platform) =
          cfg.platforms.filter (fun p => p.active) ∧
        ∀ a ∈ deliverAll cfg.platforms, a.ok = !a.platform.deliveryFails := by
  intro cfg now th d k h
  refine ⟨?_, ?_, ?_, ?_⟩
  · rw [notifyAll, if_neg (by omega)]
  · rw [notifyAll, if_neg (by omega)]
  · simp only [deliverAll, List.map_map]
    exact List.map_id _
  · intro a ha
    simp only [deliverAll, List.mem_map] at ha
    obtain ⟨p, _, hp⟩ := ha
    rw [← hp]

/-- C7 witness: with two active channels of which the first fails,
the throttle entry is advanced and both channels are attempted. -/
theorem notify_dispatch_updates_state_then_delivers_all_witness :
    (notifyAll
        { throttleMinutes := 10,
          platforms := [{ kind := PlatformKind.telegram, active := true, deliveryFails := true },
                        { kind := PlatformKind.webhook, active := true }] }
        600000 {} "down" Status.DOWN).1 = LastNotify.set {} Status.DOWN 600000 ∧
    (notifyAll
        { throttleMinutes := 10,
          platforms := [{ kind := PlatformKind.telegram, active := true, deliveryFails := true },
                        { kind := PlatformKind.webhook, active := true }] }
        600000 {} "down" Status.DOWN).2 =
      [Effect.notify "down" Status.DOWN
        [{ platform := { kind := PlatformKind.telegram, active := true, deliveryFails := true },
           ok := false },
         { platform := { kind := PlatformKind.webhook, active := true }, ok := true }]] := by
  have h := notify_dispatch_updates_state_then_delivers_all
    { throttleMinutes := 10,
      platforms := [{ kind := PlatformKind.telegram, active := true, deliveryFails := true },
                    { kind := PlatformKind.webhook, active := true }] }
    600000 {} "down" Status.DOWN (by decide)
  refine ⟨h.1, ?_⟩
  rw [h.2.1]
  rfl

theorem okDeliveries_deliverAll_zero (ps : List Platform)
    (h : ∀ p ∈ ps, p.active = false ∨ p.deliveryFails = true) :
    ((deliverAll ps).filter (fun a => a.ok)).length = 0 := by
  induction ps with
  | nil => rfl
  | cons p rest ih =>
      have hp := h p (List.mem_cons_self p rest)
      have hrest := ih (fun q hq => h q (List.mem_cons_of_mem p hq))
      rcases hp with hpa | hpf
      · simpa [deliverAll, List.filter_cons, hpa] using hrest
      · by_cases hac : p.active <;>
          simpa [deliverAll, List.filter_cons, hac, hpf] using hrest

/-- C9 (implicit): a notify call outside the throttle window advances
the throttle timestamp for its kind to the call time even when zero
deliveries occur — every configured channel inactive or failing (which
subsumes the empty channel list) — so a later notify of the same kind
within the window is silently dropped with no delivery attempt despite
no message having been delivered. -/
theorem throttle_advances_even_without_delivery :
    ∀ (cfg : Config) (now now2 : Int) (th : LastNotify) (d d2 : String) (k : Status),
      cfg.throttleMinutes * 60000 ≤ now - th.get k →
      now2 - now < cfg.throttleMinutes * 60000 →
      (∀ p ∈ cfg.platforms, p.active = false ∨ p.deliveryFails = true) →
        (notifyAll cfg now th d k).1.get k = now ∧
        okDeliveries (notifyAll cfg now th d k).2 = 0 ∧
        notifyAll cfg now2 (notifyAll cfg now th d k).1 d2 k =
          ((notifyAll cfg now th d k).1, []) := by
  intro cfg now now2 th d d2 k h1 h2 h3
  have hall : notifyAll cfg now th d k =
      (th.set k now, [Effect.notify d k (deliverAll cfg.platforms)]) := by
    rw [notifyAll, if_neg (by omega)]
  rw [hall]
  refine ⟨LastNotify.get_set_self th k now, ?_, ?_⟩
  · simp [okDeliveries, okDeliveries_deliverAll_zero cfg.platforms h3]
  · rw [notifyAll, if_pos (by rw [LastNotify.get_set_self]; omega)]

/-- C9 witness: one inactive and one failing channel, window 10 min,
first call at 600000, second at 900000. -/
theorem throttle_advances_even_without_delivery_witness :
    (notifyAll
        { throttleMinutes := 10,
          platforms := [{ kind := PlatformKind.telegram, active := false },
                        { kind := PlatformKind.webhook, active := true, deliveryFails := true }] }
        600000 {} "down" Status.DOWN).1.get Status.DOWN = 600000 ∧
    okDeliveries (notifyAll
        { throttleMinutes := 10,
          platforms := [{ kind := PlatformKind.telegram, active := false },
                        { kind := PlatformKind.webhook, active := true, deliveryFails := true }] }
        600000 {} "down" Status.DOWN).2 = 0 := by
  have h := throttle_advances_even_without_delivery
    { throttleMinutes := 10,
      platforms := [{ kind := PlatformKind.telegram, active := false },
                    { kind := PlatformKind.webhook, active := true, deliveryFails := true }] }
    600000 900000 {} "down" "down again" Status.DOWN (by decide) (by decide) (by decide)
  exact ⟨h.1, h.2.1⟩

/-- C10 (implicit): `POST /control/autorestart` performs an absolute
assignment, not a toggle — the resulting state is the input state with
`autoRestart := (body == some "on")`, the flag is `true` iff the body
field is exactly the string `on`, and an absent field yields `false`. -/
theorem autorestart_absolute_assignment :
    ∀ (cfg : Config) (creds : Option (String × String)) (body : Option String) (s : SupState),
      (handleAutorestart cfg creds body s).1 =
        { s with autoRestart := body == some "on" } ∧
      (((body == some "on") = true) ↔ body = some "on") ∧
      (handleAutorestart cfg creds none s).1.autoRestart = false := by
  intro cfg creds body s
  refine ⟨rfl, ?_, rfl⟩
  exact beq_iff_eq

/-- A state in which the child is Up: pid 1 running, started at time 0,
auto-restart off, nothing pending. -/
def upState : SupState :=
  { botProcess := some 1, isUp := true, lastStartTime := some 0, nextPid := 2 }

/-- A configuration with the default credentials and no channels. -/
def cfgA : Config := {}

/-- Valid basic-auth credentials for `cfgA`. -/
def goodCreds : Option (String × String) := some ("admin", "password")

/-- Two authenticated `POST /control/restart` commands at t=0 and t=100
while the child is Up, the resulting exit of the killed child at t=200,
then the two scheduled `startBot` timers firing at t=1000 and t=1100. -/
def restartTwiceTrace : SupState × List Effect :=
  let r1 := handleRestart cfgA 0 goodCreds upState
  let r2 := handleRestart cfgA 100 goodCreds r1.1
  let r3 := onExit cfgA 200 none (some "SIGTERM") r2.1
  let r4 := fireTimer cfgA 1000 r3.1
  let r5 := fireTimer cfgA 1100 r4.1
  (r5.1, r1.2 ++ r2.2 ++ r3.2 ++ r4.2 ++ r5.2)

/-- C1: evaluation of the code at the failing input. Two rapid restart
commands received while the process is Up, both before the delayed
start fires, produce two `spawn`s — one per command — because each
command schedules its own `setTimeout(startBot, 1000)` and `startBot`
spawns unconditionally. The claim (and the spec's contract) says at
most one replacement child may result. -/
theorem restart_twice_spawns_two :
    upState.isUp = true ∧
    spawnCount restartTwiceTrace.2 = 2 ∧
    restartTwiceTrace.1.botProcess = some 3 := by
  refine ⟨rfl, ?_, ?_⟩ <;> decide

/-- C2: evaluation of the code at the failing input. `startBot` called
while the process is already Up (`upState`) is not a no-op: it spawns a
fresh child (pid 2), replaces the process handle, and overwrites
`startedAt`, orphaning the still-running pid 1. The claim (and the
spec's `start()` contract) says it must be a failing no-op when Up. -/
theorem startBot_while_up_spawns :
    upState.isUp = true ∧
    upState.botProcess = some 1 ∧
    spawnCount (startBot cfgA 500 upState).2 = 1 ∧
    (startBot cfgA 500 upState).1.botProcess = some 2 ∧
    (startBot cfgA 500 upState).1.lastStartTime = some 500 ∧
    killCount (startBot cfgA 500 upState).2 = 0 := by
  refine ⟨rfl, rfl, ?_, ?_, ?_, ?_⟩ <;> decide

/-- An update that applies a change at t=600000 (outside the throttle
window of the t=0 startup) while `upState` is Up and auto-restart is
off, followed by the exit of the killed child at t=601000. -/
def updateKillTrace : SupState × List Effect :=
  let r1 := autoUpdateApply cfgA 600000 false true upState
  let r2 := onExit cfgA 601000 (some 0) (some "SIGTERM") r1.1
  (r2.1, r1.2 ++ r2.2)

/-- C4: evaluation of the code at the failing input. With the
auto-restart policy disabled, an update check that applies a change
while the process is Up kills the child but starts zero new instances:
the exit handler schedules nothing, so the supervisor ends Down with no
pending restart, contradicting the claim's requirement that exactly one
new instance is started for every value of the policy flag. -/
theorem autoUpdate_change_up_no_restart_when_policy_off :
    upState.isUp = true ∧
    upState.autoRestart = false ∧
    killCount updateKillTrace.2 = 1 ∧
    notifyCount Status.UP updateKillTrace.2 = 1 ∧
    spawnCount updateKillTrace.2 = 0 ∧
    updateKillTrace.1.isUp = false ∧
    updateKillTrace.1.timers = [] := by
  refine ⟨rfl, rfl, ?_, ?_, ?_, ?_, ?_⟩ <;> decide

/-- C4 amended: an update check that applies a change while the process
is Up terminates the child and notifies once; whether a new instance
starts depends on the auto-restart policy at exit time. With the policy
enabled, the exit handler schedules one delayed `startBot` and its
firing spawns exactly one replacement, and when the update is outside
the UP throttle window exactly one Up notification referencing the
update (`Code updated`) is dispatched. With the policy disabled, the
child is killed and no replacement is ever started by the update: the
supervisor stays Down with no pending timer. -/
theorem autoUpdate_change_up_restart_depends_on_policy :
    ∀ (cfg : Config) (pid np : Nat) (lst lex : Option Int) (ln : LastNotify)
      (t1 t2 t3 : Int) (c : Option Int) (sg : Option String),
      (∀ b : Bool,
        killCount (autoUpdateApply cfg t1 false true
          { botProcess := some pid, isUp := true, lastStartTime := lst,
            lastExitTime := lex, autoRestart := b, lastNotify := ln,
            timers := [], nextPid := np }).2 = 1) ∧
      (cfg.throttleMinutes * 60000 ≤ t1 - ln.get Status.UP →
        ∀ b : Bool,
          notifyCount Status.UP (autoUpdateApply cfg t1 false true
            { botProcess := some pid, isUp := true, lastStartTime := lst,
              lastExitTime := lex, autoRestart := b, lastNotify := ln,
              timers := [], nextPid := np }).2 = 1) ∧
      (let s : SupState :=
        { botProcess := some pid, isUp := true, lastStartTime := lst,
          lastExitTime := lex, autoRestart := true, lastNotify := ln,
          timers := [], nextPid := np }
       let r1 := autoUpdateApply cfg t1 false true s
       let r2 := onExit cfg t2 c sg r1.1
       let r3 := fireTimer cfg t3 r2.1
       spawnCount (r1.2 ++ r2.2 ++ r3.2) = 1 ∧
       r2.1.timers = [{ fireAt := t2 + 5000, delay := 5000 }] ∧
       r3.1.isUp = true ∧ r3.1.timers = []) ∧
      (let s : SupState :=
        { botProcess := some pid, isUp := true, lastStartTime := lst,
          lastExitTime := lex, autoRestart := false, lastNotify := ln,
          timers := [], nextPid := np }
       let r1 := autoUpdateApply cfg t1 false true s
       let r2 := onExit cfg t2 c sg r1.1
       spawnCount (r1.2 ++ r2.2) = 0 ∧
       r2.1.isUp = false ∧ r2.1.timers = []) := by
  intro cfg pid np lst lex ln t1 t2 t3 c sg
  refine ⟨?_, ?_, ?_, ?_⟩
  · intro b
    simp [autoUpdateApply, killCount, killCount_append, killCount_notifyAll]
  · intro h b
    have hn : notifyAll cfg t1 ln "Code updated" Status.UP =
        (ln.set Status.UP t1,
         [Effect.notify "Code updated" Status.UP (deliverAll cfg.platforms)]) := by
      rw [notifyAll, if_neg (by omega)]
    simp [autoUpdateApply, hn, notifyCount, notifyCount_append]
  · simp [autoUpdateApply, onExit, fireTimer, startBot, spawnCount,
      spawnCount_append, spawnCount_notifyAll]
  · simp [autoUpdateApply, onExit, spawnCount, spawnCount_append,
      spawnCount_notifyAll]

/-- C4 amended witness: concrete run with the policy enabled — one kill,
one Up notification, one replacement spawn. -/
theorem autoUpdate_change_up_restart_depends_on_policy_witness :
    cfgA.throttleMinutes * 60000 ≤ 600000 - LastNotify.get {} Status.UP ∧
    notifyCount Status.UP (autoUpdateApply cfgA 600000 false true
      { botProcess := some 1, isUp := true, lastStartTime := some 0,
        lastExitTime := none, autoRestart := true, lastNotify := {},
        timers := [], nextPid := 2 }).2 = 1 := by
  have h := autoUpdate_change_up_restart_depends_on_policy cfgA 1 2 (some 0) none {}
    600000 601000 606000 (some 0) (some "SIGTERM")
  exact ⟨by decide, h.2.1 (by decide) true⟩

/-- C8 counterexample: the `POST /control/autorestart` route carries no
`requireAuth` middleware, so a request with no credentials (which fails
the basic-auth check) is not rejected with 401 and does mutate
supervisor state: it flips the auto-restart policy flag from `false` to
`true` and responds with the redirect. This refutes the claim that
every mutating control endpoint is auth-gated with no mutation on
authentication failure. -/
theorem autorestart_endpoint_unauthenticated_mutation :
    checkAuth cfgA none = false ∧
    upState.autoRestart = false ∧
    (handleAutorestart cfgA none (some "on") upState).1.autoRestart = true ∧
    (handleAutorestart cfgA none (some "on") upState).2 =
      [Effect.logInfo "Auto-Restart toggled", Effect.response 303] := by
  refine ⟨rfl, rfl, ?_, rfl⟩
  decide

/-- C8 amended: the restart and force-update endpoints are gated by
HTTP basic auth — a request failing authentication is rejected with 401
and causes no state mutation and no other effect (no kill, spawn,
scheduled timer, or triggered update) — but the auto-restart toggle
endpoint is not gated: it assigns the policy flag for every request,
authenticated or not, and never responds 401. -/
theorem control_endpoints_auth_gating :
    ∀ (cfg : Config) (now : Int) (creds : Option (String × String))
      (body : Option String) (s : SupState),
      (checkAuth cfg creds = false →
        handleRestart cfg now creds s = (s, [Effect.response 401]) ∧
        handleUpdate cfg creds s = (s, [Effect.response 401])) ∧
      (handleAutorestart cfg creds body s).1.autoRestart = (body == some "on") ∧
      (handleAutorestart cfg creds body s).2 =
        [Effect.logInfo "Auto-Restart toggled", Effect.response 303] := by
  intro cfg now creds body s
  refine ⟨fun h => ⟨?_, ?_⟩, rfl, rfl⟩
  · rw [handleRestart, if_neg (by simp [h])]
  · rw [handleUpdate, if_neg (by simp [h])]

/-- C8 amended witness: wrong credentials on the gated endpoints leave
the state untouched and yield 401. -/
theorem control_endpoints_auth_gating_witness :
    checkAuth cfgA (some ("admin", "wrong")) = false ∧
    handleRestart cfgA 0 (some ("admin", "wrong")) upState =
      (upState, [Effect.response 401]) ∧
    handleUpdate cfgA (some ("admin", "wrong")) upState =
      (upState, [Effect.response 401]) := by
  have h := control_endpoints_auth_gating cfgA 0 (some ("admin", "wrong")) none upState
  have hc : checkAuth cfgA (some ("admin", "wrong")) = false := by decide
  exact ⟨hc, (h.1 hc).1, (h.1 hc).2⟩
